import Mathlib

/-!
Verification of the BOJ workbook progress viewer (src/main.py) against its
specification. The Python source is shallowly embedded: every handler and
helper becomes an executable Lean definition over explicit state, remote
HTTP traffic is represented by response values passed in as data, and the
theorems below settle the frozen claims about the embedding.
-/

namespace BojProgress

/-! ## TierFormatter (src/main.py lines 119-126) -/

/-- The six tier band names, TIER_NAMES in the source. -/
def TIER_NAMES : List String := ["브론즈", "실버", "골드", "플래티넘", "다이아몬드", "루비"]

/-- Python list indexing: a non-negative index reads from the front, a
negative index wraps from the back, anything out of range raises IndexError,
modelled as none. -/
def pyIndex (l : List String) (i : Int) : Option String :=
  if 0 ≤ i then l.get? i.toNat
  else if 0 ≤ i + l.length then l.get? (i + l.length).toNat
  else none

/-- convert_tier from the source. Python floor division and modulo by the
positive constant 5 coincide with Int.ediv and Int.emod. A group index
outside the list raises IndexError in Python, hence the Option result. -/
def convert_tier (tier : Int) : Option String :=
  if tier = 0 then some "미분류0"
  else
    let group : Int := (tier - 1).ediv 5
    let level : Int := 5 - (tier - 1).emod 5
    (pyIndex TIER_NAMES group).map (fun nm => nm ++ toString level)

/-- C10: convert_tier maps rank 1 to band 0 level 5, rank 5 to band 0
level 1, rank 6 to band 1 level 5, rank 30 to band 5 level 1, and rank 0 to
the literal unclassified label. -/
theorem C10_convert_tier_anchor_values :
    convert_tier 1 = some (TIER_NAMES.getD 0 "" ++ toString (5 : Int)) ∧
    convert_tier 5 = some (TIER_NAMES.getD 0 "" ++ toString (1 : Int)) ∧
    convert_tier 6 = some (TIER_NAMES.getD 1 "" ++ toString (5 : Int)) ∧
    convert_tier 30 = some (TIER_NAMES.getD 5 "" ++ toString (1 : Int)) ∧
    convert_tier 0 = some "미분류0" := by
  refine ⟨rfl, rfl, rfl, rfl, rfl⟩

/-- C2 counterexample: rank 31 does not map to any band name; the source
indexes TIER_NAMES at 6 and fails (IndexError), there is no clamping. -/
theorem C2_cex_rank31_fails : convert_tier 31 = none := by rfl

/-- C2 (amended): for ranks 1 to 30 convert_tier returns the band name at
index (rank - 1) / 5 with level 5 - ((rank - 1) % 5); for every rank above
30 the band lookup is out of range and convert_tier fails, it is not
clamped to the highest band. -/
theorem C2_convert_tier_band_level :
    (∀ rank : Int, 1 ≤ rank → rank ≤ 30 →
      convert_tier rank =
        some (TIER_NAMES.getD ((rank - 1).ediv 5).toNat "" ++
          toString (5 - (rank - 1).emod 5))) ∧
    (∀ rank : Int, 30 < rank → convert_tier rank = none) := by
  constructor
  · intro rank h1 h2
    interval_cases rank <;> rfl
  · intro rank h
    have hne : rank ≠ 0 := by omega
    have hgroup : 6 ≤ (rank - 1).ediv 5 := by
      have h30 : (6 : Int) * 5 ≤ rank - 1 := by omega
      exact (Int.le_ediv_iff_mul_le (by norm_num)).mpr h30
    have hnonneg : 0 ≤ (rank - 1).ediv 5 :=
      Int.ediv_nonneg (by omega) (by norm_num)
    simp only [convert_tier, if_neg hne]
    have hlen : TIER_NAMES.length = 6 := rfl
    have : TIER_NAMES.get? ((rank - 1).ediv 5).toNat = none := by
      apply List.get?_eq_none.mpr
      rw [hlen]
      omega
    simp [pyIndex, if_pos hnonneg, this]
    rw [hlen]
    omega

/-! ## SolvedAcClient.get_problem_info (src/main.py lines 87-104) -/

/-- The fields of one element of the problem/show payload that the
application reads. -/
structure ProblemData where
  titleKo : String
  level : Int
deriving DecidableEq

/-- Outcome of one HTTP request to the problem/show endpoint: either the
client library raised, or a status code with the JSON payload (a list,
as solved.ac wraps a single result in a one-element list). -/
inductive HttpResp where
  | exn : String → HttpResp
  | resp : Nat → List ProblemData → HttpResp
deriving DecidableEq

/-- get_problem_info from the source: none on a raised HTTP error, on a
non-200 status, or on an empty (falsy) payload; otherwise the WHOLE payload
list is returned, not its first element. -/
def get_problem_info : HttpResp → Option (List ProblemData)
  | HttpResp.exn _ => none
  | HttpResp.resp status payload =>
    if status ≠ 200 then none
    else if payload.isEmpty then none
    else some payload

/-- Modelled from the spec for comparison only: the spec says
get_problem_info returns the first element of the list-shaped payload. -/
def get_problem_info_spec : HttpResp → Option ProblemData
  | HttpResp.exn _ => none
  | HttpResp.resp status payload =>
    if status ≠ 200 then none
    else payload.head?

/-! ## SolvedAcClient.get_solved_set (src/main.py lines 40-64) -/

/-- One response of the paginated search endpoint: either
raise_for_status raised on a non-success status, or a page of items (each
item's problemId field, none when the key is missing) with the reported
total count. -/
inductive PageResp where
  | failure : String → PageResp
  | page : List (Option Nat) → Nat → PageResp
deriving DecidableEq

/-- The body of the accumulation loop over one page: a problemId is added
when it is truthy (present and nonzero), as in the source's
"if pid: solved.add(pid)". -/
def insert_pids (acc : Finset Nat) (items : List (Option Nat)) : Finset Nat :=
  items.foldl (fun s it =>
    match it with
    | some pid => if pid ≠ 0 then insert pid s else s
    | none => s) acc

/-- The truthy problemIds of a page, in page order. -/
def truthy_pids (items : List (Option Nat)) : List Nat :=
  items.filterMap (fun it =>
    match it with
    | some pid => if pid ≠ 0 then some pid else none
    | none => none)

/-- The pagination loop of get_solved_set. The backend is the finite
sequence of responses the remote serves for pages 1, 2, ...; past its end a
real backend serves pages with zero items, on which the loop stops with the
accumulated set, hence the ok result on the empty list. The loop requests
pages strictly sequentially and stops as soon as a page has zero items or
pageIdx * per_page reaches the reported count. -/
def get_solved_set_aux : List PageResp → Nat → Finset Nat → Except String (Finset Nat)
  | [], _, acc => Except.ok acc
  | PageResp.failure msg :: _, _, _ => Except.error msg
  | PageResp.page items count :: rest, pageIdx, acc =>
    let acc2 := insert_pids acc items
    let per_page := items.length
    if per_page = 0 ∨ count ≤ pageIdx * per_page then Except.ok acc2
    else get_solved_set_aux rest (pageIdx + 1) acc2

/-- get_solved_set from the source: start at page 1 with an empty set. -/
def get_solved_set (backend : List PageResp) : Except String (Finset Nat) :=
  get_solved_set_aux backend 1 ∅

/-- All truthy problemIds a backend can ever deliver. -/
def page_pids : List PageResp → List Nat
  | [] => []
  | PageResp.failure _ :: rest => page_pids rest
  | PageResp.page items _ :: rest => truthy_pids items ++ page_pids rest

/-- Consecutive chunks of the given size (the page size) of a list. -/
def chunk_list : Nat → List Nat → List (List Nat)
  | _, [] => []
  | 0, _ :: _ => []
  | Nat.succ s, a :: l =>
    ((a :: l).take (s + 1)) :: chunk_list (s + 1) ((a :: l).drop (s + 1))
termination_by _ l => l.length
decreasing_by simp [List.length_drop]; omega

/-- A stable mocked backend: the pages are consecutive chunks of a fixed
dataset and every page reports the dataset size as the total count. -/
def stable_backend (page_size : Nat) (dataset : List Nat) : List PageResp :=
  (chunk_list page_size dataset).map
    (fun c => PageResp.page (c.map some) dataset.length)

/-- C4 counterexample: on a 200 response whose payload has two elements,
get_problem_info returns the whole two-element payload, while the claimed
behaviour (first element only) would return a single ProblemData; the
returned payload has length 2, not 1. -/
theorem C4_cex_full_payload :
    get_problem_info (HttpResp.resp 200 [⟨"A", 1⟩, ⟨"B", 2⟩]) =
      some [⟨"A", 1⟩, ⟨"B", 2⟩] ∧
    get_problem_info_spec (HttpResp.resp 200 [⟨"A", 1⟩, ⟨"B", 2⟩]) =
      some ⟨"A", 1⟩ ∧
    1 < ((get_problem_info (HttpResp.resp 200 [⟨"A", 1⟩, ⟨"B", 2⟩])).getD []).length := by
  refine ⟨rfl, rfl, by decide⟩

/-- C4 (amended): get_problem_info returns none when the HTTP call raises,
when the status is not 200, or when the payload is empty; on a 200 response
with a non-empty payload it returns the WHOLE list-shaped payload (the
caller, compute_progress, extracts the first element itself). -/
theorem C4_get_problem_info_cases :
    (∀ m, get_problem_info (HttpResp.exn m) = none) ∧
    (∀ st payload, st ≠ 200 → get_problem_info (HttpResp.resp st payload) = none) ∧
    (∀ st, get_problem_info (HttpResp.resp st []) = none) ∧
    (∀ st payload, st = 200 → payload ≠ [] →
      get_problem_info (HttpResp.resp st payload) = some payload) := by
  refine ⟨fun m => rfl, ?_, ?_, ?_⟩
  · intro st payload h
    simp [get_problem_info, h]
  · intro st
    by_cases h : st = 200 <;> simp [get_problem_info, h]
  · intro st payload hst hp
    simp [get_problem_info, hst, hp]

/-- Membership in the set accumulated from one page. -/
theorem mem_insert_pids (items : List (Option Nat)) :
    ∀ (acc : Finset Nat) (x : Nat),
      x ∈ insert_pids acc items ↔ x ∈ acc ∨ x ∈ truthy_pids items := by
  induction items with
  | nil => intro acc x; simp [insert_pids, truthy_pids]
  | cons it rest ih =>
    intro acc x
    cases it with
    | none =>
      simpa [insert_pids, truthy_pids] using ih acc x
    | some pid =>
      by_cases hz : pid = 0
      · simpa [insert_pids, truthy_pids, hz] using ih acc x
      · have : insert_pids acc (some pid :: rest) = insert_pids (insert pid acc) rest := by
          simp [insert_pids, hz]
        rw [this, ih (insert pid acc) x]
        simp [truthy_pids, hz]
        tauto

/-- Anything in a set the pagination loop returns came from the initial
accumulator or from some served page. -/
theorem get_solved_set_aux_subset :
    ∀ (pages : List PageResp) (p : Nat) (acc S : Finset Nat),
      get_solved_set_aux pages p acc = Except.ok S →
      ∀ x ∈ S, x ∈ acc ∨ x ∈ page_pids pages := by
  intro pages
  induction pages with
  | nil =>
    intro p acc S h x hx
    simp only [get_solved_set_aux, Except.ok.injEq] at h
    subst h
    exact Or.inl hx
  | cons r rest ih =>
    intro p acc S h x hx
    cases r with
    | failure msg => simp [get_solved_set_aux] at h
    | page items count =>
      simp only [get_solved_set_aux] at h
      by_cases hstop : items.length = 0 ∨ count ≤ p * items.length
      · rw [if_pos hstop] at h
        injection h with h
        subst h
        rcases (mem_insert_pids items acc x).mp hx with hl | hr
        · exact Or.inl hl
        · exact Or.inr (by simp [page_pids]; exact Or.inl hr)
      · rw [if_neg hstop] at h
        rcases ih (p + 1) (insert_pids acc items) S h x hx with hl | hr
        · rcases (mem_insert_pids items acc x).mp hl with ha | hb
          · exact Or.inl ha
          · exact Or.inr (by simp [page_pids]; exact Or.inl hb)
        · exact Or.inr (by simp [page_pids]; exact Or.inr hr)

/-- Joining the chunks of a list gives the list back. -/
theorem chunk_list_join (s : Nat) :
    ∀ (n : Nat) (l : List Nat), l.length ≤ n → (chunk_list (s + 1) l).flatten = l := by
  intro n
  induction n with
  | zero =>
    intro l hl
    have : l = [] := List.eq_nil_of_length_eq_zero (Nat.le_zero.mp hl)
    subst this
    simp [chunk_list]
  | succ n ih =>
    intro l hl
    cases l with
    | nil => simp [chunk_list]
    | cons a t =>
      have hdrop : ((a :: t).drop (s + 1)).length ≤ n := by
        simp only [List.length_drop, List.length_cons] at hl ⊢
        omega
      calc (chunk_list (s + 1) (a :: t)).flatten
          = (a :: t).take (s + 1) ++ (chunk_list (s + 1) ((a :: t).drop (s + 1))).flatten := by
            rw [chunk_list]
            rfl
        _ = (a :: t).take (s + 1) ++ (a :: t).drop (s + 1) := by rw [ih _ hdrop]
        _ = a :: t := List.take_append_drop _ _

/-- Every problemId a stable backend can deliver belongs to its dataset. -/
theorem page_pids_stable (page_size : Nat) (dataset : List Nat) :
    ∀ x ∈ page_pids (stable_backend (page_size + 1) dataset), x ∈ dataset := by
  have hchunks : ∀ chunks : List (List Nat), ∀ T : Nat, ∀ x : Nat,
      x ∈ page_pids (chunks.map (fun c => PageResp.page (c.map some) T)) →
      x ∈ chunks.flatten := by
    intro chunks
    induction chunks with
    | nil => intro T x hx; simp [page_pids] at hx
    | cons c rest ih =>
      intro T x hx
      simp only [List.map_cons, page_pids, List.mem_append] at hx
      simp only [List.flatten_cons, List.mem_append]
      rcases hx with hl | hr
      · refine Or.inl ?_
        simp only [truthy_pids, List.mem_filterMap] at hl
        obtain ⟨it, hit, hcase⟩ := hl
        cases it with
        | none => simp at hcase
        | some pid =>
          by_cases hz : pid = 0
          · simp [hz] at hcase
          · simp [hz] at hcase
            subst hcase
            rcases List.mem_map.mp hit with ⟨y, hy, hyx⟩
            injection hyx with hyx
            rwa [hyx] at hy
      · exact Or.inr (ih T x hr)
  intro x hx
  have hj := hchunks (chunk_list (page_size + 1) dataset) dataset.length x hx
  rwa [chunk_list_join page_size dataset.length dataset le_rfl] at hj

/-- Equality of fetch outcomes is decidable, so concrete runs of the
pagination loop can be checked by evaluation. -/
instance {ε α : Type} [DecidableEq ε] [DecidableEq α] : DecidableEq (Except ε α) :=
  fun a b =>
    match a, b with
    | Except.ok x, Except.ok y =>
      if h : x = y then isTrue (by rw [h])
      else isFalse (fun hc => h (by injection hc))
    | Except.error x, Except.error y =>
      if h : x = y then isTrue (by rw [h])
      else isFalse (fun hc => h (by injection hc))
    | Except.ok _, Except.error _ => isFalse (fun hc => by cases hc)
    | Except.error _, Except.ok _ => isFalse (fun hc => by cases hc)

/-- C5 counterexample: one served page with six distinct truthy items that
reports a total of 3 makes get_solved_set stop at once with a set of size
6, larger than the reported total. -/
theorem C5_cex_overfull_page :
    get_solved_set
        [PageResp.page [some 1000, some 1001, some 1002, some 1003, some 1004, some 1005] 3] =
      Except.ok ({1000, 1001, 1002, 1003, 1004, 1005} : Finset Nat) ∧
    ({1000, 1001, 1002, 1003, 1004, 1005} : Finset Nat).card = 6 ∧
    3 < 6 := by
  refine ⟨by decide, by decide, by decide⟩

/-- C5 (amended): the pagination loop starts at page 1, steps to page n+1
only after page n, stops exactly when a page has zero items or
page index times page size reaches the reported total, and an exhausted
backend or a failing page also ends it; when the backend is a stable
pagination of a fixed dataset whose length every page reports as the total,
the returned set has size at most that total. For an arbitrary
inconsistent backend the size bound can fail (see the counterexample). -/
theorem C5_get_solved_set_pagination :
    (∀ p acc, get_solved_set_aux [] p acc = Except.ok acc) ∧
    (∀ msg rest p acc,
      get_solved_set_aux (PageResp.failure msg :: rest) p acc = Except.error msg) ∧
    (∀ items count rest p acc,
      get_solved_set_aux (PageResp.page items count :: rest) p acc =
        if items.length = 0 ∨ count ≤ p * items.length then
          Except.ok (insert_pids acc items)
        else get_solved_set_aux rest (p + 1) (insert_pids acc items)) ∧
    (∀ backend, get_solved_set backend = get_solved_set_aux backend 1 ∅) ∧
    (get_solved_set (stable_backend 1 [1000, 1001]) =
      Except.ok ({1000, 1001} : Finset Nat)) ∧
    (∀ (s : Nat) (dataset : List Nat) (S : Finset Nat),
      get_solved_set (stable_backend (s + 1) dataset) = Except.ok S →
      S.card ≤ dataset.length) := by
  refine ⟨fun p acc => rfl, fun msg rest p acc => rfl, fun items count rest p acc => rfl,
    fun backend => rfl, ?_, ?_⟩
  · have hb : stable_backend 1 [1000, 1001] =
        [PageResp.page [some 1000] 2, PageResp.page [some 1001] 2] := by
      simp [stable_backend, chunk_list]
    rw [hb]
    decide
  intro s dataset S h
  have hsub : S ⊆ dataset.toFinset := by
    intro x hx
    rcases get_solved_set_aux_subset (stable_backend (s + 1) dataset) 1 ∅ S h x hx with
      hl | hr
    · simp at hl
    · exact List.mem_toFinset.mpr (page_pids_stable s dataset x hr)
  calc S.card ≤ dataset.toFinset.card := Finset.card_le_card hsub
    _ ≤ dataset.length := dataset.toFinset_card_le

/-! ## WorkbookStore and ProgressCalculator (src/main.py lines 128-169) -/

/-- One workbook: display name and ordered problem id list. -/
structure Workbook where
  name : String
  problems : List Nat
deriving DecidableEq

/-- The WORKBOOKS collection: workbook key to workbook, as key-value pairs. -/
abbrev Books := List (String × Workbook)

/-- Dictionary lookup on the collection. -/
def lookupBook (books : Books) (k : String) : Option Workbook :=
  (books.find? (fun p => p.1 == k)).map (fun p => p.2)

/-- One row of the progress tables: the entry dict built per problem. -/
structure Entry where
  pid : Nat
  name : String
  tier : String
deriving DecidableEq

/-- The dict compute_progress returns. -/
structure ProgressResult where
  handle : String
  workbook_key : String
  workbook_name : String
  total : Nat
  solved_cnt : Nat
  rate : ℚ
  solved_list : List Entry
  unsolved_list : List Entry
deriving DecidableEq

/-- The per-problem body of the compute_progress loop: when the
get_problem_info result is truthy, the FIRST payload element supplies name
and tier (a tier conversion failure propagates, hence none); a falsy result
degrades to the placeholder name and unclassified tier. The oracle maps a
problem id to the get_problem_info result for it. -/
def entryFor (oracle : Nat → Option (List ProblemData)) (pid : Nat) : Option Entry :=
  match oracle pid with
  | some (item :: _) =>
    (convert_tier item.level).map (fun t => ⟨pid, item.titleKo, t⟩)
  | some [] => some ⟨pid, "(알 수 없음)", "미분류0"⟩
  | none => some ⟨pid, "(알 수 없음)", "미분류0"⟩

/-- The loop of compute_progress: partition the problem list, in order,
into solved and unsolved entry lists by membership in the solved set. -/
def splitEntries (oracle : Nat → Option (List ProblemData)) (solved_set : Finset Nat) :
    List Nat → Option (List Entry × List Entry)
  | [] => some ([], [])
  | pid :: rest =>
    match entryFor oracle pid, splitEntries oracle solved_set rest with
    | some e, some (s, u) =>
      if pid ∈ solved_set then some (e :: s, u) else some (s, e :: u)
    | _, _ => none

/-- compute_progress from the source. Reading WORKBOOKS at a missing key
raises KeyError in Python, modelled as none; the enclosing handler only
calls it on keys it has checked. -/
def compute_progress (oracle : Nat → Option (List ProblemData)) (books : Books)
    (handle workbook_key : String) (solved_set : Finset Nat) : Option ProgressResult :=
  match lookupBook books workbook_key with
  | none => none
  | some wb =>
    match splitEntries oracle solved_set wb.problems with
    | none => none
    | some (s, u) =>
      let total := wb.problems.length
      let solved_cnt := s.length
      some ⟨handle, workbook_key, wb.name, total, solved_cnt,
        if total = 0 then 0 else (solved_cnt : ℚ) / (total : ℚ) * 100, s, u⟩

/-- An entry built for a problem id carries that id. -/
theorem entryFor_pid (oracle : Nat → Option (List ProblemData)) (pid : Nat) (e : Entry)
    (h : entryFor oracle pid = some e) : e.pid = pid := by
  cases horacle : oracle pid with
  | none =>
    simp only [entryFor, horacle, Option.some.injEq] at h
    subst h; rfl
  | some l =>
    cases l with
    | nil =>
      simp only [entryFor, horacle, Option.some.injEq] at h
      subst h; rfl
    | cons item rest =>
      cases ht : convert_tier item.level with
      | none => simp [entryFor, horacle, ht] at h
      | some t =>
        simp only [entryFor, horacle, ht, Option.map_some', Option.some.injEq] at h
        subst h; rfl

/-- The split lists carry exactly the problem ids filtered by solved-set
membership, in workbook order, and their lengths add up. -/
theorem splitEntries_spec (oracle : Nat → Option (List ProblemData)) (S : Finset Nat) :
    ∀ (l : List Nat) (s u : List Entry),
      splitEntries oracle S l = some (s, u) →
      s.map Entry.pid = l.filter (fun pid => decide (pid ∈ S)) ∧
      u.map Entry.pid = l.filter (fun pid => decide (pid ∉ S)) ∧
      s.length + u.length = l.length := by
  intro l
  induction l with
  | nil =>
    intro s u h
    simp only [splitEntries, Option.some.injEq, Prod.mk.injEq] at h
    obtain ⟨hs, hu⟩ := h
    subst hs; subst hu
    simp
  | cons pid rest ih =>
    intro s u h
    cases he : entryFor oracle pid with
    | none => simp [splitEntries, he] at h
    | some e =>
      cases hrec : splitEntries oracle S rest with
      | none => simp [splitEntries, he, hrec] at h
      | some p =>
        obtain ⟨s0, u0⟩ := p
        simp only [splitEntries, he, hrec] at h
        obtain ⟨hs0, hu0, hlen⟩ := ih s0 u0 hrec
        have hpid := entryFor_pid oracle pid e he
        by_cases hmem : pid ∈ S
        · rw [if_pos hmem] at h
          simp only [Option.some.injEq, Prod.mk.injEq] at h
          obtain ⟨hs, hu⟩ := h
          subst hs; subst hu
          refine ⟨?_, ?_, ?_⟩
          · simp [hmem, hpid, hs0]
          · simp [hmem, hu0]
          · simp only [List.length_cons]; omega
        · rw [if_neg hmem] at h
          simp only [Option.some.injEq, Prod.mk.injEq] at h
          obtain ⟨hs, hu⟩ := h
          subst hs; subst hu
          refine ⟨?_, ?_, ?_⟩
          · simp [hmem, hs0]
          · simp [hmem, hpid, hu0]
          · simp only [List.length_cons]; omega

/-- C7: the result of compute_progress partitions the workbook problem
list: the two lists carry, in workbook order, exactly the problems inside
respectively outside the solved set, their lengths add up to the total,
the total is the workbook list length, and solved_cnt counts the solved
list. -/
theorem C7_compute_progress_partition (oracle : Nat → Option (List ProblemData))
    (books : Books) (h k : String) (S : Finset Nat) (wb : Workbook) (r : ProgressResult)
    (hwb : lookupBook books k = some wb)
    (hr : compute_progress oracle books h k S = some r) :
    r.solved_list.length + r.unsolved_list.length = r.total ∧
    r.total = wb.problems.length ∧
    r.solved_cnt = r.solved_list.length ∧
    r.solved_list.map Entry.pid = wb.problems.filter (fun pid => decide (pid ∈ S)) ∧
    r.unsolved_list.map Entry.pid = wb.problems.filter (fun pid => decide (pid ∉ S)) := by
  cases hsplit : splitEntries oracle S wb.problems with
  | none => simp [compute_progress, hwb, hsplit] at hr
  | some p =>
    obtain ⟨s, u⟩ := p
    simp only [compute_progress, hwb, hsplit, Option.some.injEq] at hr
    obtain ⟨hmap_s, hmap_u, hlen⟩ := splitEntries_spec oracle S wb.problems s u hsplit
    subst hr
    exact ⟨hlen, rfl, rfl, hmap_s, hmap_u⟩

/-- C7 witness: the partition property evaluated on the spec's own example
workbook [1000, 1001, 1003] with solved set {1000, 1003}. -/
theorem C7_compute_progress_partition_witness :
    (([⟨1000, "(알 수 없음)", "미분류0"⟩, ⟨1003, "(알 수 없음)", "미분류0"⟩] : List Entry).length +
        ([⟨1001, "(알 수 없음)", "미분류0"⟩] : List Entry).length = 3) ∧
    ((3 : Nat) = ([1000, 1001, 1003] : List Nat).length) ∧
    ((2 : Nat) = ([⟨1000, "(알 수 없음)", "미분류0"⟩, ⟨1003, "(알 수 없음)", "미분류0"⟩] : List Entry).length) ∧
    (([⟨1000, "(알 수 없음)", "미분류0"⟩, ⟨1003, "(알 수 없음)", "미분류0"⟩] : List Entry).map Entry.pid =
      ([1000, 1001, 1003] : List Nat).filter (fun pid => decide (pid ∈ ({1000, 1003} : Finset Nat)))) ∧
    (([⟨1001, "(알 수 없음)", "미분류0"⟩] : List Entry).map Entry.pid =
      ([1000, 1001, 1003] : List Nat).filter (fun pid => decide (pid ∉ ({1000, 1003} : Finset Nat)))) :=
  C7_compute_progress_partition (fun _ => none)
    [("basics", ⟨"Basics", [1000, 1001, 1003]⟩)] "alice" "basics" {1000, 1003}
    ⟨"Basics", [1000, 1001, 1003]⟩
    ⟨"alice", "basics", "Basics", 3, 2, ((2 : ℕ) : ℚ) / ((3 : ℕ) : ℚ) * 100,
      [⟨1000, "(알 수 없음)", "미분류0"⟩, ⟨1003, "(알 수 없음)", "미분류0"⟩],
      [⟨1001, "(알 수 없음)", "미분류0"⟩]⟩
    rfl rfl

/-! ## The progress page handler index (src/main.py lines 179-211) -/

/-- The progress slot of the rendered template context. The source binds
progress to the value of compute_progress(handle, workbook, solved_set)
WITHOUT awaiting it (src/main.py line 194), so the template receives the
coroutine object of that call, never the awaited ProgressResult dict; the
coroutine constructor records the arguments the coroutine closes over. -/
inductive ProgressSlot where
  | empty : ProgressSlot
  | result : ProgressResult → ProgressSlot
  | coroutine : String → String → Finset Nat → ProgressSlot
deriving DecidableEq

/-- Whether a slot holds an awaited ProgressResult dict. -/
def ProgressSlot.isResult : ProgressSlot → Bool
  | ProgressSlot.result _ => true
  | _ => false

/-- The progress and error entries of the template context the handler
renders. -/
structure PageContext where
  progress : ProgressSlot
  error : Option String
deriving DecidableEq

/-- Python truthiness of an optional string: None and the empty string are
falsy. -/
def truthy : Option String → Bool
  | none => false
  | some s => !s.isEmpty

/-- The index handler. Both query parameters must be truthy; an unknown
workbook key yields the validation error; otherwise get_solved_set runs and
an aggregation failure is caught and rendered as the error string; on
success the unawaited compute_progress coroutine is stored. -/
def index (books : Books) (backend : List PageResp)
    (handle workbook : Option String) : PageContext :=
  if truthy handle && truthy workbook then
    let h := handle.getD ""
    let w := workbook.getD ""
    match lookupBook books w with
    | none => ⟨ProgressSlot.empty, some "문제집 키가 잘못되었습니다."⟩
    | some _ =>
      match get_solved_set backend with
      | Except.error msg => ⟨ProgressSlot.empty, some ("오류 발생: " ++ msg)⟩
      | Except.ok solved => ⟨ProgressSlot.coroutine h w solved, none⟩
  else ⟨ProgressSlot.empty, none⟩

/-- C1 (code bug): with both parameters present, a known workbook key and a
successful aggregation, the rendered context carries no error string, but
its progress slot is the unawaited coroutine of compute_progress, not a
ProgressResult: the source omits await at the call site (line 194). -/
theorem C1_progress_slot_is_unawaited_coroutine :
    (index [("basics", ⟨"Basics", [1000, 1001, 1003]⟩)] [PageResp.page [some 1000] 1]
        (some "alice") (some "basics")).error = none ∧
    (index [("basics", ⟨"Basics", [1000, 1001, 1003]⟩)] [PageResp.page [some 1000] 1]
        (some "alice") (some "basics")).progress =
      ProgressSlot.coroutine "alice" "basics" {1000} ∧
    ProgressSlot.isResult
        (index [("basics", ⟨"Basics", [1000, 1001, 1003]⟩)] [PageResp.page [some 1000] 1]
          (some "alice") (some "basics")).progress = false := by
  refine ⟨by decide, by decide, by decide⟩

/-- C6: a non-success status on any page aborts the aggregation with a
RemoteError carrying that page's message, regardless of what was already
accumulated (no partial set escapes), and the handler renders the caught
failure as the "오류 발생: <message>" string with an empty progress slot. -/
theorem C6_remote_error_aborts (books : Books) (backend : List PageResp)
    (h w msg : String) (wb : Workbook)
    (hh : truthy (some h) = true) (hw : truthy (some w) = true)
    (hwb : lookupBook books w = some wb)
    (herr : get_solved_set backend = Except.error msg) :
    index books backend (some h) (some w) =
      ⟨ProgressSlot.empty, some ("오류 발생: " ++ msg)⟩ ∧
    ∀ m rest p acc, get_solved_set_aux (PageResp.failure m :: rest) p acc = Except.error m := by
  refine ⟨?_, fun m rest p acc => rfl⟩
  simp [index, hh, hw, hwb, herr]

/-- C6 witness: a backend whose first page fails with message boom. -/
theorem C6_remote_error_aborts_witness :
    index [("basics", ⟨"Basics", [1000, 1001, 1003]⟩)] [PageResp.failure "boom"]
        (some "alice") (some "basics") =
      ⟨ProgressSlot.empty, some ("오류 발생: " ++ "boom")⟩ ∧
    ∀ m rest p acc, get_solved_set_aux (PageResp.failure m :: rest) p acc = Except.error m :=
  C6_remote_error_aborts [("basics", ⟨"Basics", [1000, 1001, 1003]⟩)] [PageResp.failure "boom"]
    "alice" "basics" "boom" ⟨"Basics", [1000, 1001, 1003]⟩
    (by decide) (by decide) (by decide) (by decide)

/-! ## AdminMutationHandlers (src/main.py lines 216-327) -/

/-- The hard-coded admin secret. -/
def ADMIN_KEY : String := "lenamayer28"

/-- Python str.strip removes these whitespace characters (ASCII range)
from both ends. -/
def isPySpace (c : Char) : Bool :=
  c = ' ' || c = '\t' || c = '\n' || c = '\r' || c = '\x0b' || c = '\x0c'

/-- Python str.strip on ASCII input. -/
def pyStrip (s : String) : String :=
  String.mk (((s.toList.dropWhile isPySpace).reverse.dropWhile isPySpace).reverse)

/-- Python str.isdecimal on ASCII input: nonempty and all decimal digits. -/
def isdecimal (s : String) : Bool :=
  !s.isEmpty && s.toList.all Char.isDigit

/-- Python int() on a string isdecimal accepted. -/
def strToNat (s : String) : Nat :=
  s.toList.foldl (fun a c => a * 10 + (c.toNat - 48)) 0

/-- The validity condition the claims describe for a problem id string:
all decimal digits and value at least 1000. -/
def validPid (s : String) : Bool :=
  isdecimal s && decide (1000 ≤ strToNat s)

/-- The validation message for a malformed or too-small problem number. -/
def MSG_BAD_PID : String := "문제 번호는 1000 이상의 정수여야 합니다."

/-- Python list.sort(): ascending order. -/
def pySortAsc (l : List Nat) : List Nat :=
  List.insertionSort (fun a b => a ≤ b) l

/-- Replace the workbook stored at a key. -/
def updateBook (books : Books) (k : String) (wb : Workbook) : Books :=
  books.map (fun p => if p.1 == k then (p.1, wb) else p)

/-- The observable outcome of one admin request: the workbook collection
after the request, the admin_error and admin_message template entries,
whether save_workbooks_to_file ran, and whether problem_exists was
called on the remote judge. -/
structure AdminOutcome where
  books : Books
  admin_error : Option String
  admin_message : Option String
  persisted : Bool
  existsChecked : Bool
deriving DecidableEq

/-- admin_add_problem from the source: admin key, then strip/isdecimal and
the 1000 lower bound, then workbook whitelist, then the remote existence
check, then the duplicate check; only a genuinely new problem id mutates
the list (append then sort ascending) and persists. probExists plays the
remote judge. -/
def admin_add_problem (probExists : Nat → Bool) (books : Books)
    (admin_key problem_id workbook : String) : AdminOutcome :=
  if admin_key ≠ ADMIN_KEY then
    ⟨books, some "관리자 키가 올바르지 않습니다.", none, false, false⟩
  else if ¬ isdecimal (pyStrip problem_id) then ⟨books, some MSG_BAD_PID, none, false, false⟩
  else if strToNat (pyStrip problem_id) < 1000 then ⟨books, some MSG_BAD_PID, none, false, false⟩
  else
    match lookupBook books workbook with
    | none => ⟨books, some "존재하지 않는 문제집입니다.", none, false, false⟩
    | some wb =>
      if ¬ probExists (strToNat (pyStrip problem_id)) then
        ⟨books, some "BOJ에 존재하지 않는 문제 번호입니다.", none, false, true⟩
      else if strToNat (pyStrip problem_id) ∈ wb.problems then
        ⟨books, none,
          some ("이미 문제집에 포함된 문제입니다: " ++ toString (strToNat (pyStrip problem_id))),
          false, true⟩
      else
        ⟨updateBook books workbook
            ⟨wb.name, pySortAsc (wb.problems ++ [strToNat (pyStrip problem_id)])⟩, none,
          some ("문제 " ++ toString (strToNat (pyStrip problem_id)) ++ " 이(가) \x27" ++
            wb.name ++ "\x27 문제집에 추가되었습니다."),
          true, true⟩

/-- admin_delete_problem from the source: the same admin key and problem
number validation and workbook whitelist, then the membership check; a
present id is removed (first occurrence, list.remove) and persisted. The
delete path never calls the remote existence check. -/
def admin_delete_problem (books : Books)
    (admin_key problem_id workbook : String) : AdminOutcome :=
  if admin_key ≠ ADMIN_KEY then
    ⟨books, some "관리자 키가 올바르지 않습니다.", none, false, false⟩
  else if ¬ isdecimal (pyStrip problem_id) then ⟨books, some MSG_BAD_PID, none, false, false⟩
  else if strToNat (pyStrip problem_id) < 1000 then ⟨books, some MSG_BAD_PID, none, false, false⟩
  else
    match lookupBook books workbook with
    | none => ⟨books, some "존재하지 않는 문제집입니다.", none, false, false⟩
    | some wb =>
      if strToNat (pyStrip problem_id) ∉ wb.problems then
        ⟨books,
          some ("해당 문제(" ++ toString (strToNat (pyStrip problem_id)) ++
            ")는 문제집에 존재하지 않습니다."),
          none, false, false⟩
      else
        ⟨updateBook books workbook
            ⟨wb.name, wb.problems.erase (strToNat (pyStrip problem_id))⟩, none,
          some ("문제 " ++ toString (strToNat (pyStrip problem_id)) ++ " 이(가) \x27" ++
            wb.name ++ "\x27 문제집에서 삭제되었습니다."),
          true, false⟩

/-- The missing-delete-target message never equals the problem-number
validation message: their first characters differ. -/
theorem del_msg_ne (t : String) :
    ("해당 문제(" ++ t ++ ")는 문제집에 존재하지 않습니다.") ≠ MSG_BAD_PID := by
  intro hc
  have hd := congrArg String.data hc
  rw [String.data_append, String.data_append] at hd
  have h1 : ("해당 문제(".data ++ t.data ++ ")는 문제집에 존재하지 않습니다.".data).head? =
      some '해' := rfl
  rw [hd] at h1
  have h2 : MSG_BAD_PID.data.head? = some '문' := rfl
  rw [h2] at h1
  injection h1 with h1
  exact absurd h1 (by decide)

/-- The delete handler never calls the remote existence check. -/
theorem admin_delete_existsChecked (books : Books) (k p w : String) :
    (admin_delete_problem books k p w).existsChecked = false := by
  unfold admin_delete_problem
  repeat' split
  all_goals rfl

/-- Either admin_add_problem persists nothing and leaves the collection
untouched, or the checks all passed on a fresh problem id and the outcome
is exactly the sorted insertion, persisted. -/
theorem admin_add_cases (ex : Nat → Bool) (books : Books) (k p w : String) :
    ((admin_add_problem ex books k p w).persisted = false ∧
     (admin_add_problem ex books k p w).books = books) ∨
    (∃ wb, lookupBook books w = some wb ∧ strToNat (pyStrip p) ∉ wb.problems ∧
      admin_add_problem ex books k p w =
        ⟨updateBook books w ⟨wb.name, pySortAsc (wb.problems ++ [strToNat (pyStrip p)])⟩,
         none,
         some ("문제 " ++ toString (strToNat (pyStrip p)) ++ " 이(가) \x27" ++ wb.name ++
           "\x27 문제집에 추가되었습니다."),
         true, true⟩) := by
  unfold admin_add_problem
  repeat' split
  all_goals try exact Or.inl ⟨rfl, rfl⟩
  rename_i wb heq hex hmem
  exact Or.inr ⟨wb, heq, hmem, rfl⟩

/-- Either admin_delete_problem persists nothing and leaves the collection
untouched, or the checks all passed on a present problem id and the outcome
is exactly the removal, persisted. -/
theorem admin_delete_cases (books : Books) (k p w : String) :
    ((admin_delete_problem books k p w).persisted = false ∧
     (admin_delete_problem books k p w).books = books) ∨
    (∃ wb, lookupBook books w = some wb ∧ strToNat (pyStrip p) ∈ wb.problems ∧
      admin_delete_problem books k p w =
        ⟨updateBook books w ⟨wb.name, wb.problems.erase (strToNat (pyStrip p))⟩,
         none,
         some ("문제 " ++ toString (strToNat (pyStrip p)) ++ " 이(가) \x27" ++ wb.name ++
           "\x27 문제집에서 삭제되었습니다."),
         true, false⟩) := by
  unfold admin_delete_problem
  repeat' split
  all_goals try exact Or.inl ⟨rfl, rfl⟩
  rename_i wb heq hmem
  refine Or.inr ⟨wb, heq, ?_, rfl⟩
  by_contra hc
  exact hmem hc

/-- Updating the workbook stored at a key that resolves replaces what the
key resolves to. -/
theorem lookupBook_updateBook :
    ∀ (books : Books) (k : String) (wb wb2 : Workbook),
      lookupBook books k = some wb →
      lookupBook (updateBook books k wb2) k = some wb2 := by
  intro books
  induction books with
  | nil => intro k wb wb2 h; simp [lookupBook] at h
  | cons q rest ih =>
    intro k wb wb2 h
    obtain ⟨k1, w1⟩ := q
    by_cases hk : k1 == k
    · simp [lookupBook, updateBook, List.find?, hk]
    · have h2 : lookupBook rest k = some wb := by
        simpa [lookupBook, List.find?, hk] using h
      have h3 := ih k wb wb2 h2
      simpa [lookupBook, updateBook, List.find?, hk] using h3

/-- C3 counterexample: the submitted string " 1000 " is not composed
entirely of decimal digits, yet with the correct admin key the handler
strips it first, accepts it, and does call the remote existence check, so
the claimed "exactly when" equivalence and the never-called condition both
fail on it. -/
theorem C3_cex_whitespace_pid :
    isdecimal " 1000 " = false ∧
    (admin_add_problem (fun _ => true) [("basics", ⟨"Basics", []⟩)]
        ADMIN_KEY " 1000 " "basics").admin_error = none ∧
    (admin_add_problem (fun _ => true) [("basics", ⟨"Basics", []⟩)]
        ADMIN_KEY " 1000 " "basics").existsChecked = true := by
  refine ⟨rfl, rfl, rfl⟩

/-- C3 (amended): with the correct admin key, both handlers return the
"problem number must be an integer at least 1000" message exactly when the
STRIPPED problem id string is not all decimal digits or parses below 1000;
when that validation fails the remote existence check is never called (the
delete handler never calls it at all), and "999" and "12a" are both
rejected with that same message without the remote check. -/
theorem C3_pid_validation (ex : Nat → Bool) (books : Books) (pid wkey : String) :
    ((admin_add_problem ex books ADMIN_KEY pid wkey).admin_error = some MSG_BAD_PID ↔
      validPid (pyStrip pid) = false) ∧
    ((admin_delete_problem books ADMIN_KEY pid wkey).admin_error = some MSG_BAD_PID ↔
      validPid (pyStrip pid) = false) ∧
    (validPid (pyStrip pid) = false →
      (admin_add_problem ex books ADMIN_KEY pid wkey).existsChecked = false) ∧
    ((admin_delete_problem books ADMIN_KEY pid wkey).existsChecked = false) ∧
    ((admin_add_problem ex books ADMIN_KEY "999" wkey).admin_error = some MSG_BAD_PID) ∧
    ((admin_add_problem ex books ADMIN_KEY "12a" wkey).admin_error = some MSG_BAD_PID) ∧
    ((admin_delete_problem books ADMIN_KEY "999" wkey).admin_error = some MSG_BAD_PID) ∧
    ((admin_delete_problem books ADMIN_KEY "12a" wkey).admin_error = some MSG_BAD_PID) ∧
    ((admin_add_problem ex books ADMIN_KEY "999" wkey).existsChecked = false) ∧
    ((admin_add_problem ex books ADMIN_KEY "12a" wkey).existsChecked = false) := by
  refine ⟨?_, ?_, ?_, admin_delete_existsChecked books ADMIN_KEY pid wkey,
    rfl, rfl, rfl, rfl, rfl, rfl⟩
  · by_cases hdec : isdecimal (pyStrip pid) = true
    · by_cases hlt : strToNat (pyStrip pid) < 1000
      · have hv : validPid (pyStrip pid) = false := by
          simp only [validPid, hdec, Bool.true_and, decide_eq_false_iff_not]
          omega
        simp [admin_add_problem, hdec, hlt, hv]
      · have hv : validPid (pyStrip pid) = true := by
          simp only [validPid, hdec, Bool.true_and, decide_eq_true_eq]
          omega
        rw [hv]
        cases hlk : lookupBook books wkey with
        | none =>
          simp only [admin_add_problem, hdec, hlt, hlk]
          simp [MSG_BAD_PID]
        | some wb =>
          by_cases hex : ex (strToNat (pyStrip pid)) = true
          · by_cases hmem : strToNat (pyStrip pid) ∈ wb.problems
            · simp [admin_add_problem, hdec, hlt, hlk, hex, hmem]
            · simp [admin_add_problem, hdec, hlt, hlk, hex, hmem]
          · simp only [admin_add_problem, hdec, hlt, hlk, hex]
            simp [MSG_BAD_PID]
    · have hv : validPid (pyStrip pid) = false := by
        simp [validPid, hdec]
      simp [admin_add_problem, hdec, hv]
  · by_cases hdec : isdecimal (pyStrip pid) = true
    · by_cases hlt : strToNat (pyStrip pid) < 1000
      · have hv : validPid (pyStrip pid) = false := by
          simp only [validPid, hdec, Bool.true_and, decide_eq_false_iff_not]
          omega
        simp [admin_delete_problem, hdec, hlt, hv]
      · have hv : validPid (pyStrip pid) = true := by
          simp only [validPid, hdec, Bool.true_and, decide_eq_true_eq]
          omega
        rw [hv]
        cases hlk : lookupBook books wkey with
        | none =>
          simp only [admin_delete_problem, hdec, hlt, hlk]
          simp [MSG_BAD_PID]
        | some wb =>
          by_cases hmem : strToNat (pyStrip pid) ∈ wb.problems
          · simp [admin_delete_problem, hdec, hlt, hlk, hmem]
          · simp [admin_delete_problem, hdec, hlt, hlk, hmem,
              del_msg_ne (toString (strToNat (pyStrip pid)))]
    · have hv : validPid (pyStrip pid) = false := by
        simp [validPid, hdec]
      simp [admin_delete_problem, hdec, hv]
  · intro hv
    by_cases hdec : isdecimal (pyStrip pid) = true
    · by_cases hlt : strToNat (pyStrip pid) < 1000
      · simp [admin_add_problem, hdec, hlt]
      · exfalso
        have : validPid (pyStrip pid) = true := by
          simp only [validPid, hdec, Bool.true_and, decide_eq_true_eq]
          omega
        rw [this] at hv
        cases hv
    · simp [admin_add_problem, hdec]

/-- C8: whenever either admin handler reports a validation failure or the
duplicate-add informational outcome, the workbook collection is unchanged
and nothing is persisted: anything short of a persisted success leaves the
books untouched, a reported admin_error never persists, and a duplicate
add never persists. -/
theorem C8_failure_leaves_books_unchanged (ex : Nat → Bool) (books : Books) (k p w : String) :
    ((admin_add_problem ex books k p w).persisted = false →
      (admin_add_problem ex books k p w).books = books) ∧
    ((admin_add_problem ex books k p w).admin_error.isSome = true →
      (admin_add_problem ex books k p w).persisted = false ∧
      (admin_add_problem ex books k p w).books = books) ∧
    (∀ wb, lookupBook books w = some wb → strToNat (pyStrip p) ∈ wb.problems →
      (admin_add_problem ex books k p w).persisted = false ∧
      (admin_add_problem ex books k p w).books = books) ∧
    ((admin_delete_problem books k p w).persisted = false →
      (admin_delete_problem books k p w).books = books) ∧
    ((admin_delete_problem books k p w).admin_error.isSome = true →
      (admin_delete_problem books k p w).persisted = false ∧
      (admin_delete_problem books k p w).books = books) := by
  refine ⟨?_, ?_, ?_, ?_, ?_⟩
  · intro hp
    rcases admin_add_cases ex books k p w with ⟨_, hb⟩ | ⟨wb, _, _, hres⟩
    · exact hb
    · rw [hres] at hp
      cases hp
  · intro herr
    rcases admin_add_cases ex books k p w with ⟨hp, hb⟩ | ⟨wb, _, _, hres⟩
    · exact ⟨hp, hb⟩
    · rw [hres] at herr
      cases herr
  · intro wb hlk hmem
    rcases admin_add_cases ex books k p w with ⟨hp, hb⟩ | ⟨wb2, hlk2, hmem2, hres⟩
    · exact ⟨hp, hb⟩
    · rw [hlk] at hlk2
      injection hlk2 with hlk2
      subst hlk2
      exact absurd hmem hmem2
  · intro hp
    rcases admin_delete_cases books k p w with ⟨_, hb⟩ | ⟨wb, _, _, hres⟩
    · exact hb
    · rw [hres] at hp
      cases hp
  · intro herr
    rcases admin_delete_cases books k p w with ⟨hp, hb⟩ | ⟨wb, _, _, hres⟩
    · exact ⟨hp, hb⟩
    · rw [hres] at herr
      cases herr

/-- C9: starting from a workbook whose list is sorted ascending without
duplicates, any outcome the handlers persist again stores, at that key, a
sorted duplicate-free list, and any change to the collection is persisted
in the same request. -/
theorem C9_admin_mutation_invariants (ex : Nat → Bool) (books : Books) (k p w : String)
    (wb : Workbook) (hlk : lookupBook books w = some wb)
    (hs : List.Sorted (fun a b => a ≤ b) wb.problems) (hn : wb.problems.Nodup) :
    ((admin_add_problem ex books k p w).persisted = true →
      ∃ wb2, lookupBook (admin_add_problem ex books k p w).books w = some wb2 ∧
        List.Sorted (fun a b => a ≤ b) wb2.problems ∧ wb2.problems.Nodup) ∧
    ((admin_delete_problem books k p w).persisted = true →
      ∃ wb2, lookupBook (admin_delete_problem books k p w).books w = some wb2 ∧
        List.Sorted (fun a b => a ≤ b) wb2.problems ∧ wb2.problems.Nodup) ∧
    ((admin_add_problem ex books k p w).books ≠ books →
      (admin_add_problem ex books k p w).persisted = true) ∧
    ((admin_delete_problem books k p w).books ≠ books →
      (admin_delete_problem books k p w).persisted = true) := by
  refine ⟨?_, ?_, ?_, ?_⟩
  · intro hp
    rcases admin_add_cases ex books k p w with ⟨hpf, _⟩ | ⟨wb2, hlk2, hmem2, hres⟩
    · rw [hpf] at hp
      cases hp
    · rw [hlk] at hlk2
      injection hlk2 with hlk2
      subst hlk2
      refine ⟨⟨wb.name, pySortAsc (wb.problems ++ [strToNat (pyStrip p)])⟩, ?_, ?_, ?_⟩
      · rw [hres]
        exact lookupBook_updateBook books w wb _ hlk
      · exact List.sorted_insertionSort _ _
      · refine ((List.perm_insertionSort _ _).nodup_iff).mpr ?_
        simp [List.nodup_append, hn, hmem2]
  · intro hp
    rcases admin_delete_cases books k p w with ⟨hpf, _⟩ | ⟨wb2, hlk2, hmem2, hres⟩
    · rw [hpf] at hp
      cases hp
    · rw [hlk] at hlk2
      injection hlk2 with hlk2
      subst hlk2
      refine ⟨⟨wb.name, wb.problems.erase (strToNat (pyStrip p))⟩, ?_, ?_, ?_⟩
      · rw [hres]
        exact lookupBook_updateBook books w wb _ hlk
      · exact List.Pairwise.sublist (List.erase_sublist _ _) hs
      · exact hn.erase _
  · intro hne
    rcases admin_add_cases ex books k p w with ⟨_, hb⟩ | ⟨wb2, _, _, hres⟩
    · exact absurd hb hne
    · rw [hres]
  · intro hne
    rcases admin_delete_cases books k p w with ⟨_, hb⟩ | ⟨wb2, _, _, hres⟩
    · exact absurd hb hne
    · rw [hres]

/-- C9 witness: adding problem 1001 to the sorted duplicate-free workbook
[1000, 1002] (and deleting 1001 from it). -/
theorem C9_admin_mutation_invariants_witness :
    ((admin_add_problem (fun _ => true) [("b", ⟨"B", [1000, 1002]⟩)]
        ADMIN_KEY "1001" "b").persisted = true →
      ∃ wb2, lookupBook (admin_add_problem (fun _ => true) [("b", ⟨"B", [1000, 1002]⟩)]
          ADMIN_KEY "1001" "b").books "b" = some wb2 ∧
        List.Sorted (fun a b => a ≤ b) wb2.problems ∧ wb2.problems.Nodup) ∧
    ((admin_delete_problem [("b", ⟨"B", [1000, 1002]⟩)]
        ADMIN_KEY "1001" "b").persisted = true →
      ∃ wb2, lookupBook (admin_delete_problem [("b", ⟨"B", [1000, 1002]⟩)]
          ADMIN_KEY "1001" "b").books "b" = some wb2 ∧
        List.Sorted (fun a b => a ≤ b) wb2.problems ∧ wb2.problems.Nodup) ∧
    ((admin_add_problem (fun _ => true) [("b", ⟨"B", [1000, 1002]⟩)]
        ADMIN_KEY "1001" "b").books ≠ [("b", ⟨"B", [1000, 1002]⟩)] →
      (admin_add_problem (fun _ => true) [("b", ⟨"B", [1000, 1002]⟩)]
        ADMIN_KEY "1001" "b").persisted = true) ∧
    ((admin_delete_problem [("b", ⟨"B", [1000, 1002]⟩)]
        ADMIN_KEY "1001" "b").books ≠ [("b", ⟨"B", [1000, 1002]⟩)] →
      (admin_delete_problem [("b", ⟨"B", [1000, 1002]⟩)]
        ADMIN_KEY "1001" "b").persisted = true) :=
  C9_admin_mutation_invariants (fun _ => true) [("b", ⟨"B", [1000, 1002]⟩)]
    ADMIN_KEY "1001" "b" ⟨"B", [1000, 1002]⟩ rfl (by decide) (by decide)

end BojProgress
